import Mathlib

/-!
Shallow embedding of `src/{{cookiecutter.service_name}}/service.py` from the
eoepca-proc-service-template repository, together with theorems settling the
frozen claims about its behaviour.

Modelling conventions:
* Python dicts are association lists `List (String × α)`; assignment
  `d[k] = v` replaces the value at the first occurrence of `k` in place, or
  appends `(k, v)` at the end when `k` is absent (Python dicts preserve
  insertion order and hold each key once).
* JSON values are the inductive `JVal`; a Python `None` stored in a dict is
  `JVal.jnull`.
* `conf["additional_parameters"]` is the record `AdditionalParameters`; a
  field holding `none` models the Python value `None` for that key.
* External collaborators (the process environment, the Kubernetes configmap
  read, the workspace HTTP GET, the JWT decoder, the catalog read, the local
  filesystem and the YAML parser) are inputs to the embedded functions: each
  is passed in as the value / outcome the collaborator produced.
* A hook body that raises is reflected by a `raised : Bool` flag in the
  outcome record; the state carried by the outcome is the state at the point
  the exception escaped (the source logs and re-raises, mutating nothing
  further except the `finally` proxy restoration, modelled separately).
-/

/-- JSON-like values, used for asset dictionaries and serialized collections. -/
inductive JVal where
  | jnull : JVal
  | jbool (b : Bool) : JVal
  | jstr (s : String) : JVal
  | jarr (xs : List JVal) : JVal
  | jobj (fields : List (String × JVal)) : JVal

/-- Python value `None`-or-string rendered as a JSON value (how `json.dumps`
and dict storage treat an `Option String` sized value). -/
def optJ : Option String → JVal
  | none => JVal.jnull
  | some s => JVal.jstr s

/-- First-occurrence lookup in an association list, i.e. Python `d[k]` /
`d.get(k)` on a dict without duplicate keys. -/
def lookupKey {α : Type} : List (String × α) → String → Option α
  | [], _ => none
  | (k', v) :: rest, k => if k' = k then some v else lookupKey rest k

/-- Python dict assignment `d[k] = v`: replace in place at the first
occurrence of `k`, else append at the end. -/
def setKey {α : Type} : List (String × α) → String → α → List (String × α)
  | [], k, v => [(k, v)]
  | (k', v') :: rest, k, v =>
      if k' = k then (k, v) :: rest else (k', v') :: setKey rest k v

/-- Mirror of `conf["additional_parameters"]`: every key this module reads or
writes.  `none` models the Python value `None`. -/
structure AdditionalParameters where
  STAGEIN_AWS_SERVICEURL : Option String
  STAGEIN_AWS_ACCESS_KEY_ID : Option String
  STAGEIN_AWS_SECRET_ACCESS_KEY : Option String
  STAGEIN_AWS_REGION : Option String
  STAGEOUT_AWS_SERVICEURL : Option String
  STAGEOUT_AWS_ACCESS_KEY_ID : Option String
  STAGEOUT_AWS_SECRET_ACCESS_KEY : Option String
  STAGEOUT_AWS_REGION : Option String
  STAGEOUT_OUTPUT : Option String
  STAGEOUT_WORKSPACE : Option String
  STAGEOUT_PULSAR_URL : Option String
  STAGEOUT_ACCESS_POINT : Option String
  WORKSPACE_DOMAIN : Option String
  collection_id : Option String
  process : Option String
deriving DecidableEq, Repr

/-- Fresh `additional_parameters` dict (`conf["additional_parameters"] = {}`):
no key present, modelled as every field `none`. -/
def AdditionalParameters.empty : AdditionalParameters :=
  { STAGEIN_AWS_SERVICEURL := none
  , STAGEIN_AWS_ACCESS_KEY_ID := none
  , STAGEIN_AWS_SECRET_ACCESS_KEY := none
  , STAGEIN_AWS_REGION := none
  , STAGEOUT_AWS_SERVICEURL := none
  , STAGEOUT_AWS_ACCESS_KEY_ID := none
  , STAGEOUT_AWS_SECRET_ACCESS_KEY := none
  , STAGEOUT_AWS_REGION := none
  , STAGEOUT_OUTPUT := none
  , STAGEOUT_WORKSPACE := none
  , STAGEOUT_PULSAR_URL := none
  , STAGEOUT_ACCESS_POINT := none
  , WORKSPACE_DOMAIN := none
  , collection_id := none
  , process := none }

/-- Embedding of the static method `init_config_defaults(conf)` (service.py
lines 327-345).  `env` is the process environment (`os.environ.get`); `p` is
the pre-existing `conf["additional_parameters"]` content (created empty when
absent).  Environment values are strings, so every key with a string default
receives `some` of a string; the three keys whose default is `None` receive
whatever the environment holds. -/
def init_config_defaults (env : String → Option String)
    (p : AdditionalParameters) : AdditionalParameters :=
  { p with
    STAGEIN_AWS_SERVICEURL :=
      some ((env "STAGEIN_AWS_SERVICEURL").getD "http://s3-service.zoo.svc.cluster.local:9000")
    STAGEIN_AWS_ACCESS_KEY_ID :=
      some ((env "STAGEIN_AWS_ACCESS_KEY_ID").getD "minio-admin")
    STAGEIN_AWS_SECRET_ACCESS_KEY :=
      some ((env "STAGEIN_AWS_SECRET_ACCESS_KEY").getD "minio-secret-password")
    STAGEIN_AWS_REGION :=
      some ((env "STAGEIN_AWS_REGION").getD "RegionOne")
    STAGEOUT_AWS_SERVICEURL :=
      some ((env "STAGEOUT_AWS_SERVICEURL").getD "http://s3-service.zoo.svc.cluster.local:9000")
    STAGEOUT_AWS_ACCESS_KEY_ID :=
      some ((env "STAGEOUT_AWS_ACCESS_KEY_ID").getD "minio-admin")
    STAGEOUT_AWS_SECRET_ACCESS_KEY :=
      some ((env "STAGEOUT_AWS_SECRET_ACCESS_KEY").getD "minio-secret-password")
    STAGEOUT_AWS_REGION :=
      some ((env "STAGEOUT_AWS_REGION").getD "RegionOne")
    STAGEOUT_OUTPUT :=
      some ((env "STAGEOUT_OUTPUT").getD "eoepca")
    STAGEOUT_WORKSPACE :=
      some ((env "STAGEOUT_WORKSPACE").getD "default")
    STAGEOUT_PULSAR_URL := env "STAGEOUT_PULSAR_URL"
    STAGEOUT_ACCESS_POINT := env "STAGEOUT_ACCESS_POINT"
    WORKSPACE_DOMAIN := env "WORKSPACE_DOMAIN" }

/-- Embedding of the static method `get_user_name(decodedJwt)` (service.py
lines 350-355): walk the fixed key list, return the first present value,
else the empty string.  The decoded JWT payload is an association list. -/
def getFirstOfKeys (d : List (String × String)) : List String → String
  | [] => ""
  | k :: ks =>
      match lookupKey d k with
      | some v => v
      | none => getFirstOfKeys d ks

/-- Mirror of `get_user_name`: try `username`, `user_name`,
`preferred_username` in that order (service.py line 352). -/
def get_user_name (decodedJwt : List (String × String)) : String :=
  getFirstOfKeys decodedJwt ["username", "user_name", "preferred_username"]

/-- Mirror of `__init__` lines 125-128: the workspace is used when both the
workspace URL and the workspace prefix strings are non-empty (Python string
truthiness). -/
def initUseWorkspace (url pfx : String) : Bool :=
  url ≠ "" && pfx ≠ ""

/-- Fields extracted from the workspace response body path
`workspace_response["storage"]["credentials"]` via `.get`, so each field is
`none` when absent from the body. -/
structure StorageCredentials where
  endpoint : Option String
  access : Option String
  secret : Option String
  region : Option String
  bucketname : Option String
deriving DecidableEq, Repr

/-- Outcome of the workspace-details GET as the code observes it: the HTTP
status, and `some` credentials when `response.json()["storage"]["credentials"]`
evaluates without raising, `none` when the body is not JSON or lacks the
path (in which case line 182/186 raises). -/
structure WorkspaceResponse where
  status : Nat
  storageCredentials : Option StorageCredentials
deriving DecidableEq, Repr

/-- Result state of `pre_execution_hook`: the `additional_parameters` dict,
the `use_workspace` flag, the `username` attribute (absent when the token was
empty), and whether the hook re-raised an exception. -/
structure PreHookOutcome where
  params : AdditionalParameters
  use_workspace : Bool
  username : Option String
  raised : Bool
deriving Repr

/-- Embedding of `pre_execution_hook` (service.py lines 138-215).

Inputs supplied by external collaborators: `p0` is the entry value of
`conf["additional_parameters"]` (after `init_config_defaults` ran in
`__init__`); `useWs` is `self.use_workspace` from `__init__`; `token` is
`self.ades_rx_token`; `decoded` the JWT payload produced by `jwt.decode`;
`wsName` is `self.workspace_name`; `usid` is `conf["lenv"].get("usid", "")`;
`cmAccessPoint` is the configmap read (`Except.error` models `ApiException`,
whose handler leaves the access point `None`); `resp` is the workspace GET
response (consulted only when the workspace branch runs).

`requests` defines `response.ok` as `status_code < 400`.  When `useWs` is
true and the token was empty, `self.username` was never assigned, so the
f-string at line 168 raises `AttributeError` (the base handler defines no
`username`); the hook logs and re-raises with `conf` untouched.  When the
body lacks `storage.credentials`, line 182/186 raises before any assignment. -/
def pre_execution_hook (p0 : AdditionalParameters) (useWs : Bool)
    (token : String) (decoded : List (String × String)) (wsName usid : String)
    (cmAccessPoint : Except Unit (Option String)) (resp : WorkspaceResponse) :
    PreHookOutcome :=
  let accessPoint : Option String :=
    match cmAccessPoint with
    | Except.ok v => v
    | Except.error _ => none
  let username : Option String :=
    if token ≠ "" then some (get_user_name decoded) else none
  let finishTail (p : AdditionalParameters) (ws : Bool) : PreHookOutcome :=
    { params :=
        { p with
          collection_id := some usid
          process := some "processing-results"
          STAGEOUT_WORKSPACE := some wsName
          STAGEOUT_ACCESS_POINT := accessPoint }
    , use_workspace := ws
    , username := username
    , raised := false }
  if useWs then
    match username with
    | none =>
        { params := p0, use_workspace := useWs, username := none, raised := true }
    | some _ =>
        if resp.status < 400 then
          match resp.storageCredentials with
          | none =>
              { params := p0, use_workspace := useWs, username := username
              , raised := true }
          | some sc =>
              finishTail
                { p0 with
                  STAGEOUT_AWS_SERVICEURL := sc.endpoint
                  STAGEOUT_AWS_ACCESS_KEY_ID := sc.access
                  STAGEOUT_AWS_SECRET_ACCESS_KEY := sc.secret
                  STAGEOUT_AWS_REGION := sc.region
                  STAGEOUT_OUTPUT := sc.bucketname }
                true
        else
          finishTail p0 false
  else
    finishTail p0 useWs

/-- Dictionary form of a STAC asset, as produced by `Asset.to_dict()` and
consumed by `Asset.from_dict(...)` (the source round-trips assets through
their dict form, so the asset is modelled as that dict). -/
abbrev AssetDict := List (String × JVal)

/-- STAC item as the post hook touches it: its id, its (mutable) collection
id, and its named assets in dict form. -/
structure Item where
  id : String
  collection_id : Option String
  assets : List (String × AssetDict)

/-- STAC collection as the post hook touches it: its `to_dict()` form and the
result of `get_self_href()`. -/
structure Collection where
  dict : List (String × JVal)
  selfHref : Option String

/-- Output catalog read with `read_file`: `get_all_collections()` enumerates
`collections`, `get_all_items()` enumerates `items`. -/
structure Catalog where
  collections : List Collection
  items : List Item

/-- Per-asset mutation in the fallback branch (service.py lines 257-264):
`cDict = asset.to_dict()`, five `storage:*` keys assigned in order, then
`from_dict` replaces the asset. -/
def annotateAsset (p : AdditionalParameters) (d : AssetDict) : AssetDict :=
  let d1 := setKey d "storage:platform" (JVal.jstr "EOEPCA")
  let d2 := setKey d1 "storage:requester_pays" (JVal.jbool false)
  let d3 := setKey d2 "storage:tier" (JVal.jstr "Standard")
  let d4 := setKey d3 "storage:region" (optJ p.STAGEOUT_AWS_REGION)
  setKey d4 "storage:endpoint" (optJ p.STAGEOUT_AWS_SERVICEURL)

/-- Per-item mutation in the fallback branch (service.py lines 256-266):
annotate every asset, then set `i.collection_id = collection_id`.  The
subsequent `i.clone()` copies the mutated item, which in this value model is
the item itself. -/
def annotateItem (p : AdditionalParameters) (i : Item) : Item :=
  { i with
    assets := i.assets.map (fun kv => (kv.1, annotateAsset p kv.2))
    collection_id := p.collection_id }

/-- Mirror of `pystac.Item.to_dict()` restricted to the fields this module's
consumers can observe (id, assets, collection pointer). -/
def itemToDict (i : Item) : JVal :=
  JVal.jobj
    [ ("type", JVal.jstr "Feature")
    , ("id", JVal.jstr i.id)
    , ("assets", JVal.jobj (i.assets.map (fun kv => (kv.1, JVal.jobj kv.2))))
    , ("collection", optJ i.collection_id) ]

/-- Mirror of `pystac.ItemCollection.to_dict()`: a GeoJSON FeatureCollection
dict listing the item dicts (note: no `id` key of its own). -/
def itemCollectionToDict (l : List Item) : List (String × JVal) :=
  [("type", JVal.jstr "FeatureCollection"), ("features", JVal.jarr (l.map itemToDict))]

/-- The `collection` local of the post hook when it is not `None`: either the
first collection of the catalog (line 250) or an `ItemCollection` built from
the mutated item clones (line 267). -/
inductive ConsolidatedKind where
  | fromCollection (c : Collection) : ConsolidatedKind
  | fromItems (l : List Item) : ConsolidatedKind

/-- HTTP POSTs issued by the registration section (service.py lines 292-307):
`register-json` with the collection dict, then `register` with
`{"type": "stac-item", "url": collection.get_self_href()}`. -/
inductive RegisterCall where
  | registerJson (body : JVal) : RegisterCall
  | registerResult (selfUrl : Option String) : RegisterCall

/-- Lines 226-232 write seven `additional_parameters` values into
`os.environ`; `os.environ[k] = None` raises `TypeError`, so the export
section completes exactly when all seven are non-`None`.
(`STAGEOUT_OUTPUT` and `STAGEOUT_WORKSPACE` are not exported.) -/
def exportsOk (p : AdditionalParameters) : Bool :=
  p.STAGEOUT_AWS_SERVICEURL.isSome
    && p.STAGEOUT_AWS_ACCESS_KEY_ID.isSome
    && p.STAGEOUT_AWS_SECRET_ACCESS_KEY.isSome
    && p.STAGEOUT_AWS_REGION.isSome
    && p.STAGEOUT_PULSAR_URL.isSome
    && p.WORKSPACE_DOMAIN.isSome
    && p.STAGEOUT_ACCESS_POINT.isSome

/-- Result state of `post_execution_hook`: the stored `feature_collection`
(`none` keeps the `None` from `__init__`; `some v` models the stored JSON
text by its parsed value), the `collection` local when it was produced, the
POSTs issued, whether the hook re-raised, and the in-memory state of the
catalog's item list after the hook (`none` when the catalog was never read
successfully). -/
structure PostHookOutcome where
  featureCollection : Option JVal
  consolidated : Option ConsolidatedKind
  calls : List RegisterCall
  raised : Bool
  itemsAfter : Option (List Item)

/-- Embedding of `post_execution_hook` (service.py lines 217-316).

`p` is `conf["additional_parameters"]` at entry, `useWs` is
`self.use_workspace`, and `readResult` is the outcome of lines 237-244
(`Except.error` covers a missing `StacCatalogUri` key or a failing
`read_file`; that exception is swallowed, leaving `cat` unbound, so both the
collection branch and the item branch raise `NameError` and `collection`
stays `None`).

Control flow mirrored: the environment export (lines 226-232) raises
`TypeError` when a value is `None`, aborting before the catalog read; with a
successfully read catalog, `next(cat.get_all_collections())` either yields
the first collection or raises `StopIteration` into the bare `except`, whose
fallback always constructs an `ItemCollection` from the (possibly empty)
mutated item clones; `collection` is therefore `None` only when the read
failed.  On the `None` path `feature_collection` becomes `json.dumps({})`
and the method returns before registration.  Otherwise the dict gets
`collection_dict["id"] = collection_id` and, when `use_workspace` is true,
`register-json` is POSTed; the second POST calls
`collection.get_self_href()`, which exists on `Collection` but not on
`ItemCollection`, so the item-branch registration raises `AttributeError`
after the first POST. -/
def post_execution_hook (p : AdditionalParameters) (useWs : Bool)
    (readResult : Except Unit Catalog) : PostHookOutcome :=
  if exportsOk p then
    match readResult with
    | Except.error _ =>
        { featureCollection := some (JVal.jobj [])
        , consolidated := none
        , calls := []
        , raised := false
        , itemsAfter := none }
    | Except.ok cat =>
        match cat.collections with
        | c :: _ =>
            let d := setKey c.dict "id" (optJ p.collection_id)
            { featureCollection := some (JVal.jobj d)
            , consolidated := some (ConsolidatedKind.fromCollection c)
            , calls :=
                if useWs then
                  [RegisterCall.registerJson (JVal.jobj d), RegisterCall.registerResult c.selfHref]
                else []
            , raised := false
            , itemsAfter := some cat.items }
        | [] =>
            let annotated := cat.items.map (annotateItem p)
            let d := setKey (itemCollectionToDict annotated) "id" (optJ p.collection_id)
            { featureCollection := some (JVal.jobj d)
            , consolidated := some (ConsolidatedKind.fromItems annotated)
            , calls := if useWs then [RegisterCall.registerJson (JVal.jobj d)] else []
            , raised := useWs
            , itemsAfter := some annotated }
  else
    { featureCollection := none
    , consolidated := none
    , calls := []
    , raised := true
    , itemsAfter := none }

/-- Process state visible to the proxy-handling helpers: the `HTTP_PROXY`
variable and the rest of the mutable state a hook body may touch. -/
structure ProcState (σ : Type) where
  httpProxy : Option String
  rest : σ

/-- Mirror of `__init__` line 119:
`self.http_proxy_env = os.environ.get("HTTP_PROXY", None)`. -/
def capture_http_proxy {σ : Type} (e : ProcState σ) : Option String :=
  e.httpProxy

/-- Mirror of `unset_http_proxy_env` (service.py lines 318-320):
`os.environ.pop("HTTP_PROXY", None)`. -/
def unset_http_proxy_env {σ : Type} (e : ProcState σ) : ProcState σ :=
  { e with httpProxy := none }

/-- Python truthiness of the captured proxy value: `None` and the empty
string are falsy. -/
def truthyStr : Option String → Bool
  | none => false
  | some s => s ≠ ""

/-- Mirror of `restore_http_proxy_env` (service.py lines 322-325): restore
only when `self.http_proxy_env` is truthy. -/
def restore_http_proxy_env {σ : Type} (captured : Option String)
    (e : ProcState σ) : ProcState σ :=
  if truthyStr captured then { e with httpProxy := captured } else e

/-- Shared try/finally shape of both hooks (lines 138-215 and 217-316): unset
the proxy variable, run the body (which does not touch `HTTP_PROXY`; it
returns the new non-proxy state and whether it raised), then the `finally`
block restores the captured value whether or not the body raised. -/
def run_hook {σ : Type} (captured : Option String) (e : ProcState σ)
    (body : σ → σ × Bool) : ProcState σ × Bool :=
  let e1 := unset_http_proxy_env e
  let r := body e1.rest
  (restore_http_proxy_env captured { httpProxy := e1.httpProxy, rest := r.1 }, r.2)

/-- Attribute state relevant to the access point of the custom STAC IO class
(source class `CustomStacIO`): the class attribute slot written by
`set_access_point` and the instance attribute slot written by `__init__`.
The outer `Option` is attribute presence, the inner one the Python value. -/
structure CustomStacIoState where
  clsAccessPoint : Option (Option String)
  instAccessPoint : Option (Option String)

/-- Mirror of `CustomStacIO.__init__` line 53: whatever the class state is,
the constructor stores the instance attribute `access_point = None`. -/
def customStacIoNew (cls : Option (Option String)) : CustomStacIoState :=
  { clsAccessPoint := cls, instAccessPoint := some none }

/-- Mirror of the classmethod `set_access_point` (lines 76-78):
`cls.access_point = value`, leaving instance attributes untouched. -/
def set_access_point (s : CustomStacIoState) (v : Option String) :
    CustomStacIoState :=
  { s with clsAccessPoint := some v }

/-- Python attribute lookup for `self.access_point`: the instance attribute
shadows the class attribute; `none` is an `AttributeError`. -/
def getAccessPointAttr (s : CustomStacIoState) : Option (Option String) :=
  match s.instAccessPoint with
  | some v => some v
  | none => s.clsAccessPoint

/-- Bucket resolution appearing in `read_text` line 82 and `write_text` line
97: `bucket = self.access_point or parsed.netloc` (`or` takes the right
operand when the left is `None` or the empty string).  `none` models the
lookup itself raising `AttributeError`. -/
def bucketFor (s : CustomStacIoState) (netloc : String) : Option String :=
  match getAccessPointAttr s with
  | none => none
  | some (some ap) => some (if ap = "" then netloc else ap)
  | some none => some netloc

/-- The bucket `read_text` addresses for an `s3://` source (line 82). -/
def read_text_bucket (s : CustomStacIoState) (netloc : String) : Option String :=
  bucketFor s netloc

/-- The bucket `write_text` addresses for an `s3://` destination (line 97). -/
def write_text_bucket (s : CustomStacIoState) (netloc : String) : Option String :=
  bucketFor s netloc

/-- YAML values as far as `local_get_file`'s callers observe them; the empty
mapping is Python's `{}`. -/
inductive YamlVal where
  | mapping (entries : List (String × YamlVal)) : YamlVal
  | ystr (s : String) : YamlVal
  | ynull : YamlVal

/-- Embedding of the static method `local_get_file(fileName)` (service.py
lines 357-376).  `fs` is the filesystem (`none` = `FileNotFoundError` on
`open`); `parse` is `yaml.safe_load` (`Except.error` covers `YAMLError`, of
which `ScannerError` is a subclass).  Both error paths return `{}`. -/
def local_get_file (fs : String → Option String)
    (parse : String → Except Unit YamlVal) (fileName : String) : YamlVal :=
  match fs fileName with
  | none => YamlVal.mapping []
  | some content =>
      match parse content with
      | Except.ok data => data
      | Except.error _ => YamlVal.mapping []

/-! ### Helper lemmas about the dict operations -/

theorem lookupKey_setKey_self {α : Type} (d : List (String × α)) (k : String)
    (v : α) : lookupKey (setKey d k v) k = some v := by
  induction d with
  | nil => simp [setKey, lookupKey]
  | cons hd tl ih =>
      obtain ⟨k', v'⟩ := hd
      by_cases h : k' = k
      · simp [setKey, lookupKey, h]
      · simp [setKey, lookupKey, h, ih]

theorem lookupKey_setKey_other {α : Type} (d : List (String × α))
    (k k' : String) (v : α) (h : k' ≠ k) :
    lookupKey (setKey d k v) k' = lookupKey d k' := by
  have h' : k ≠ k' := fun hh => h hh.symm
  induction d with
  | nil => simp [setKey, lookupKey, h']
  | cons hd tl ih =>
      obtain ⟨k0, v0⟩ := hd
      by_cases h0 : k0 = k
      · subst h0
        simp [setKey, lookupKey, h']
      · simp only [setKey, h0, if_false, lookupKey]
        by_cases h1 : k0 = k'
        · simp [h1]
        · simp [h1, ih]

/-- The five `storage:*` keys an annotated asset dict reports, independent of
the original asset content. -/
theorem annotateAsset_fields (p : AdditionalParameters) (d : AssetDict) :
    lookupKey (annotateAsset p d) "storage:platform" = some (JVal.jstr "EOEPCA")
    ∧ lookupKey (annotateAsset p d) "storage:requester_pays" = some (JVal.jbool false)
    ∧ lookupKey (annotateAsset p d) "storage:tier" = some (JVal.jstr "Standard")
    ∧ lookupKey (annotateAsset p d) "storage:region" = some (optJ p.STAGEOUT_AWS_REGION)
    ∧ lookupKey (annotateAsset p d) "storage:endpoint" = some (optJ p.STAGEOUT_AWS_SERVICEURL) := by
  unfold annotateAsset
  refine ⟨?_, ?_, ?_, ?_, ?_⟩
  · rw [lookupKey_setKey_other _ _ _ _ (by decide),
      lookupKey_setKey_other _ _ _ _ (by decide),
      lookupKey_setKey_other _ _ _ _ (by decide),
      lookupKey_setKey_other _ _ _ _ (by decide),
      lookupKey_setKey_self]
  · rw [lookupKey_setKey_other _ _ _ _ (by decide),
      lookupKey_setKey_other _ _ _ _ (by decide),
      lookupKey_setKey_other _ _ _ _ (by decide),
      lookupKey_setKey_self]
  · rw [lookupKey_setKey_other _ _ _ _ (by decide),
      lookupKey_setKey_other _ _ _ _ (by decide),
      lookupKey_setKey_self]
  · rw [lookupKey_setKey_other _ _ _ _ (by decide),
      lookupKey_setKey_self]
  · rw [lookupKey_setKey_self]

/-! ### Sample data for witnesses and counterexamples -/

/-- Fully populated `additional_parameters` as the hooks normally see it. -/
def sampleParams : AdditionalParameters :=
  { STAGEIN_AWS_SERVICEURL := some "http://s3-service.zoo.svc.cluster.local:9000"
  , STAGEIN_AWS_ACCESS_KEY_ID := some "minio-admin"
  , STAGEIN_AWS_SECRET_ACCESS_KEY := some "minio-secret-password"
  , STAGEIN_AWS_REGION := some "RegionOne"
  , STAGEOUT_AWS_SERVICEURL := some "http://minio.ws.local"
  , STAGEOUT_AWS_ACCESS_KEY_ID := some "ak"
  , STAGEOUT_AWS_SECRET_ACCESS_KEY := some "sk"
  , STAGEOUT_AWS_REGION := some "region-1"
  , STAGEOUT_OUTPUT := some "eoepca"
  , STAGEOUT_WORKSPACE := some "ws1"
  , STAGEOUT_PULSAR_URL := some "pulsar-url"
  , STAGEOUT_ACCESS_POINT := some "bucket-1"
  , WORKSPACE_DOMAIN := some "example.org"
  , collection_id := some "cid-1"
  , process := some "processing-results" }

/-- Sample catalog collection. -/
def collectionSample : Collection :=
  { dict :=
      [ ("type", JVal.jstr "Collection")
      , ("id", JVal.jstr "orig-col")
      , ("description", JVal.jstr "demo") ]
  , selfHref := some "s3://bucket-1/col/collection.json" }

/-- Sample catalog item with one asset. -/
def itemSample : Item :=
  { id := "item-1"
  , collection_id := some "orig-col"
  , assets := [("data", [("href", JVal.jstr "s3://bucket-1/item-1/data.tif")])] }

/-- An environment with no variable set (every default applies). -/
def envEmpty : String → Option String := fun _ => none

/-- The static defaults `init_config_defaults` installs on a fresh
configuration under `envEmpty`. -/
def preDefaults : AdditionalParameters :=
  init_config_defaults envEmpty AdditionalParameters.empty

/-! ### Claim theorems -/

/-- C5: for every decoded token mapping, `get_user_name` returns the value of
the first field present among `username`, `user_name`, `preferred_username`,
in that fixed priority order, and the empty string when none of the three
keys is present. -/
theorem c5_get_user_name_priority (d : List (String × String)) :
    get_user_name d =
      (((lookupKey d "username").orElse fun _ => lookupKey d "user_name").orElse
          fun _ => lookupKey d "preferred_username").getD "" := by
  unfold get_user_name
  cases h1 : lookupKey d "username" with
  | some v => simp [getFirstOfKeys, h1, Option.orElse]
  | none =>
      cases h2 : lookupKey d "user_name" with
      | some v => simp [getFirstOfKeys, h1, h2, Option.orElse]
      | none =>
          cases h3 : lookupKey d "preferred_username" with
          | some v => simp [getFirstOfKeys, h1, h2, h3, Option.orElse]
          | none => simp [getFirstOfKeys, h1, h2, h3, Option.orElse]

/-- C9: for every instance created through the constructor, and whatever
value was installed on the class through `set_access_point` (before or after
construction), both `read_text` and `write_text` resolve the bucket to the
URI's network location: the instance attribute `access_point = None` written
by `__init__` shadows the class attribute in
`self.access_point or parsed.netloc`. -/
theorem c9_access_point_shadowed (cls : Option (Option String))
    (v : Option String) (netloc : String) :
    read_text_bucket (set_access_point (customStacIoNew cls) v) netloc = some netloc
    ∧ write_text_bucket (set_access_point (customStacIoNew cls) v) netloc = some netloc
    ∧ read_text_bucket (customStacIoNew cls) netloc = some netloc
    ∧ write_text_bucket (customStacIoNew cls) netloc = some netloc :=
  ⟨rfl, rfl, rfl, rfl⟩

/-- C10: `local_get_file` returns the parsed YAML value when the file exists
and parses, and the empty mapping (without raising) when the file does not
exist or its content fails YAML parsing. -/
theorem c10_local_get_file_total (fs : String → Option String)
    (parse : String → Except Unit YamlVal) (n : String) :
    (∀ c v, fs n = some c → parse c = Except.ok v → local_get_file fs parse n = v)
    ∧ (fs n = none → local_get_file fs parse n = YamlVal.mapping [])
    ∧ (∀ c e, fs n = some c → parse c = Except.error e →
        local_get_file fs parse n = YamlVal.mapping []) := by
  refine ⟨?_, ?_, ?_⟩
  · intro c v hc hp
    simp [local_get_file, hc, hp]
  · intro hc
    simp [local_get_file, hc]
  · intro c e hc hp
    simp [local_get_file, hc, hp]

/-- Sample filesystem for the C10 witness. -/
def fsSample : String → Option String := fun n =>
  if n = "good.yaml" then some "a: 1"
  else if n = "bad.yaml" then some "[" else none

/-- Sample YAML parser for the C10 witness. -/
def parseSample : String → Except Unit YamlVal := fun c =>
  if c = "a: 1" then Except.ok (YamlVal.mapping [("a", YamlVal.ystr "1")])
  else Except.error ()

/-- Witness for C10 at concrete inputs: a parsing file, a missing file and a
malformed file. -/
theorem c10_local_get_file_total_witness :
    local_get_file fsSample parseSample "good.yaml"
        = YamlVal.mapping [("a", YamlVal.ystr "1")]
    ∧ local_get_file fsSample parseSample "missing.yaml" = YamlVal.mapping []
    ∧ local_get_file fsSample parseSample "bad.yaml" = YamlVal.mapping [] :=
  ⟨(c10_local_get_file_total fsSample parseSample "good.yaml").1 "a: 1"
      (YamlVal.mapping [("a", YamlVal.ystr "1")]) rfl rfl
  , (c10_local_get_file_total fsSample parseSample "missing.yaml").2.1 rfl
  , (c10_local_get_file_total fsSample parseSample "bad.yaml").2.2 "[" () rfl rfl⟩

/-- C8 counterexample: `HTTP_PROXY` set to the empty string before the hook
is a set value, yet after the hook completes the variable is gone rather than
restored, because `restore_http_proxy_env` tests Python truthiness and the
empty string is falsy.  The run here is a normally returning body. -/
theorem c8_counterexample :
    ({ httpProxy := some "", rest := () } : ProcState Unit).httpProxy = some ""
    ∧ (run_hook (capture_http_proxy ({ httpProxy := some "", rest := () } : ProcState Unit))
        { httpProxy := some "", rest := () } (fun s => (s, false))).1.httpProxy = none :=
  ⟨rfl, rfl⟩

/-- C8 (amended): if `HTTP_PROXY` holds a non-empty value when the handler
captures it and the hook then runs, the variable is absent during the hook
body and is restored to the captured value afterwards, whether or not the
body raised. -/
theorem c8_proxy_cleared_and_restored {σ : Type} (e : ProcState σ)
    (body : σ → σ × Bool) (v : String)
    (hset : e.httpProxy = some v) (hne : v ≠ "") :
    (unset_http_proxy_env e).httpProxy = none
    ∧ (run_hook (capture_http_proxy e) e body).1.httpProxy = some v := by
  constructor
  · rfl
  · have htr : truthyStr (some v) = true := by
      simp [truthyStr, hne]
    simp [run_hook, restore_http_proxy_env, capture_http_proxy, hset, htr]

/-- Witness for the amended C8 at the spec's concrete proxy value, with a
raising body. -/
theorem c8_proxy_cleared_and_restored_witness :
    (unset_http_proxy_env
        ({ httpProxy := some "http://proxy:8080", rest := () } : ProcState Unit)).httpProxy = none
    ∧ (run_hook
        (capture_http_proxy
          ({ httpProxy := some "http://proxy:8080", rest := () } : ProcState Unit))
        { httpProxy := some "http://proxy:8080", rest := () }
        (fun s => (s, true))).1.httpProxy = some "http://proxy:8080" :=
  c8_proxy_cleared_and_restored
    ({ httpProxy := some "http://proxy:8080", rest := () } : ProcState Unit)
    (fun s => (s, true)) "http://proxy:8080" rfl (by decide)

/-- Item ids survive the fallback-branch mutation. -/
theorem annotateItem_id (p : AdditionalParameters) (i : Item) :
    (annotateItem p i).id = i.id := rfl

/-- Mapping the fallback-branch mutation over a list preserves the id list. -/
theorem map_annotateItem_ids (p : AdditionalParameters) (its : List Item) :
    (its.map (annotateItem p)).map Item.id = its.map Item.id := by
  induction its with
  | nil => rfl
  | cons a as ih => simp [annotateItem_id, ih]

/-- C1: the claim fails on the code.  For a successfully read catalog with
zero collections and zero items (workspace registration enabled,
`collection_id = "cid-1"`), the fallback branch builds
`ItemCollection(items=[])`, which is not `None`, so the empty-output trap at
line 273 does not fire: `feature_collection` becomes the serialized
FeatureCollection dict (not `{}`) and the `register-json` POST is made. -/
theorem c1_empty_catalog_divergence :
    (post_execution_hook sampleParams true
        (Except.ok { collections := [], items := [] })).featureCollection
      = some (JVal.jobj
          [ ("type", JVal.jstr "FeatureCollection")
          , ("features", JVal.jarr [])
          , ("id", JVal.jstr "cid-1") ])
    ∧ (post_execution_hook sampleParams true
        (Except.ok { collections := [], items := [] })).calls
      = [RegisterCall.registerJson (JVal.jobj
          [ ("type", JVal.jstr "FeatureCollection")
          , ("features", JVal.jarr [])
          , ("id", JVal.jstr "cid-1") ])]
    ∧ (post_execution_hook sampleParams true
        (Except.ok { collections := [], items := [] })).featureCollection
      ≠ some (JVal.jobj []) := by
  refine ⟨rfl, rfl, ?_⟩
  intro h
  rw [show (post_execution_hook sampleParams true
      (Except.ok { collections := [], items := [] })).featureCollection
    = some (JVal.jobj
        [ ("type", JVal.jstr "FeatureCollection")
        , ("features", JVal.jarr [])
        , ("id", JVal.jstr "cid-1") ]) from rfl] at h
  simp at h

/-- C2: for every post-hook run whose catalog read succeeded (so that a
consolidated collection is produced, from the first catalog collection or
from items), the serialized collection dict stored in `feature_collection`
carries `id` equal to the supplied
`conf["additional_parameters"]["collection_id"]`, overriding any id the
catalog's own collection carried. -/
theorem c2_collection_id_overrides (p : AdditionalParameters) (useWs : Bool)
    (cat : Catalog) (cid : String) (hx : exportsOk p = true)
    (hcid : p.collection_id = some cid) :
    ∃ d, (post_execution_hook p useWs (Except.ok cat)).featureCollection
        = some (JVal.jobj d)
      ∧ lookupKey d "id" = some (JVal.jstr cid) := by
  obtain ⟨cols, its⟩ := cat
  cases cols with
  | nil =>
      refine ⟨setKey (itemCollectionToDict (its.map (annotateItem p))) "id"
          (optJ p.collection_id), ?_, ?_⟩
      · simp [post_execution_hook, hx]
      · rw [lookupKey_setKey_self, hcid]; rfl
  | cons c cs =>
      refine ⟨setKey c.dict "id" (optJ p.collection_id), ?_, ?_⟩
      · simp [post_execution_hook, hx]
      · rw [lookupKey_setKey_self, hcid]; rfl

/-- Witness for C2: a catalog whose collection carries its own id
`orig-col`; the stored dict reports `cid-1`. -/
theorem c2_collection_id_overrides_witness :
    ∃ d, (post_execution_hook sampleParams true
        (Except.ok { collections := [collectionSample], items := [] })).featureCollection
        = some (JVal.jobj d)
      ∧ lookupKey d "id" = some (JVal.jstr "cid-1") :=
  c2_collection_id_overrides sampleParams true
    { collections := [collectionSample], items := [] } "cid-1" rfl rfl

/-- C7: when the catalog already contains a collection, the consolidation
result is that first collection with only its `id` overwritten to the
supplied collection id, and the catalog's items are untouched (no asset
mutation, no collection-id restamping). -/
theorem c7_first_collection_frame (p : AdditionalParameters) (useWs : Bool)
    (c : Collection) (cs : List Collection) (its : List Item) (cid : String)
    (hx : exportsOk p = true) (hcid : p.collection_id = some cid) :
    (post_execution_hook p useWs
        (Except.ok { collections := c :: cs, items := its })).consolidated
      = some (ConsolidatedKind.fromCollection c)
    ∧ (post_execution_hook p useWs
        (Except.ok { collections := c :: cs, items := its })).itemsAfter
      = some its
    ∧ ∃ d, (post_execution_hook p useWs
          (Except.ok { collections := c :: cs, items := its })).featureCollection
        = some (JVal.jobj d)
      ∧ lookupKey d "id" = some (JVal.jstr cid)
      ∧ ∀ k, k ≠ "id" → lookupKey d k = lookupKey c.dict k := by
  refine ⟨?_, ?_, setKey c.dict "id" (optJ p.collection_id), ?_, ?_, ?_⟩
  · simp [post_execution_hook, hx]
  · simp [post_execution_hook, hx]
  · simp [post_execution_hook, hx]
  · rw [lookupKey_setKey_self, hcid]; rfl
  · intro k hk
    exact lookupKey_setKey_other _ _ _ _ hk

/-- Witness for C7 at a concrete catalog holding one collection and one
item. -/
theorem c7_first_collection_frame_witness :
    (post_execution_hook sampleParams true
        (Except.ok { collections := [collectionSample], items := [itemSample] })).consolidated
      = some (ConsolidatedKind.fromCollection collectionSample)
    ∧ (post_execution_hook sampleParams true
        (Except.ok { collections := [collectionSample], items := [itemSample] })).itemsAfter
      = some [itemSample]
    ∧ ∃ d, (post_execution_hook sampleParams true
          (Except.ok { collections := [collectionSample], items := [itemSample] })).featureCollection
        = some (JVal.jobj d)
      ∧ lookupKey d "id" = some (JVal.jstr "cid-1")
      ∧ ∀ k, k ≠ "id" → lookupKey d k = lookupKey collectionSample.dict k :=
  c7_first_collection_frame sampleParams true collectionSample [] [itemSample]
    "cid-1" rfl rfl

/-- C6: when the catalog yields no collection but does yield items, the
result is built from a clone of every item (ids preserved positionally, and
the in-place mutation of the originals yields the same list): every item's
collection id is restamped to the supplied collection id, and every asset of
every item carries the EOEPCA storage annotations with region and endpoint
equal to the active stage-out credentials. -/
theorem c6_items_branch (p : AdditionalParameters) (useWs : Bool)
    (its : List Item) (cid r u : String)
    (hx : exportsOk p = true) (hcid : p.collection_id = some cid)
    (hr : p.STAGEOUT_AWS_REGION = some r)
    (hu : p.STAGEOUT_AWS_SERVICEURL = some u)
    (_hne : its ≠ []) :
    ∃ l, (post_execution_hook p useWs
          (Except.ok { collections := [], items := its })).consolidated
        = some (ConsolidatedKind.fromItems l)
      ∧ (post_execution_hook p useWs
          (Except.ok { collections := [], items := its })).itemsAfter = some l
      ∧ l.map Item.id = its.map Item.id
      ∧ ∀ it ∈ l, it.collection_id = some cid
          ∧ ∀ a ∈ it.assets,
              lookupKey a.2 "storage:platform" = some (JVal.jstr "EOEPCA")
              ∧ lookupKey a.2 "storage:requester_pays" = some (JVal.jbool false)
              ∧ lookupKey a.2 "storage:tier" = some (JVal.jstr "Standard")
              ∧ lookupKey a.2 "storage:region" = some (JVal.jstr r)
              ∧ lookupKey a.2 "storage:endpoint" = some (JVal.jstr u) := by
  refine ⟨its.map (annotateItem p), ?_, ?_, map_annotateItem_ids p its, ?_⟩
  · simp [post_execution_hook, hx]
  · simp [post_execution_hook, hx]
  · intro it hit
    rw [List.mem_map] at hit
    obtain ⟨i, hi, rfl⟩ := hit
    constructor
    · show (annotateItem p i).collection_id = some cid
      simp [annotateItem, hcid]
    · intro a ha
      simp only [annotateItem, List.mem_map] at ha
      obtain ⟨kv, hkv, rfl⟩ := ha
      have h5 := annotateAsset_fields p kv.2
      rw [hr, hu] at h5
      simpa [optJ] using h5

/-- Witness for C6 at a concrete catalog with one item and one asset. -/
theorem c6_items_branch_witness :
    ∃ l, (post_execution_hook sampleParams false
          (Except.ok { collections := [], items := [itemSample] })).consolidated
        = some (ConsolidatedKind.fromItems l)
      ∧ (post_execution_hook sampleParams false
          (Except.ok { collections := [], items := [itemSample] })).itemsAfter = some l
      ∧ l.map Item.id = [itemSample].map Item.id
      ∧ ∀ it ∈ l, it.collection_id = some "cid-1"
          ∧ ∀ a ∈ it.assets,
              lookupKey a.2 "storage:platform" = some (JVal.jstr "EOEPCA")
              ∧ lookupKey a.2 "storage:requester_pays" = some (JVal.jbool false)
              ∧ lookupKey a.2 "storage:tier" = some (JVal.jstr "Standard")
              ∧ lookupKey a.2 "storage:region" = some (JVal.jstr "region-1")
              ∧ lookupKey a.2 "storage:endpoint" = some (JVal.jstr "http://minio.ws.local") :=
  c6_items_branch sampleParams false [itemSample] "cid-1" "region-1"
    "http://minio.ws.local" rfl rfl rfl rfl (by simp)

/-- C3 counterexample, exhibiting the claim's two failure modes at concrete
runs with the workspace configured and a non-empty token.

Run 1 (status 500, configmap access point found): the hook tail overwrites
the `STAGEOUT_ACCESS_POINT` and `STAGEOUT_WORKSPACE` keys of
`additional_parameters`, so the `STAGEOUT_*` values do not all remain the
static defaults installed by `init_config_defaults` (the `use_workspace`
conclusion does hold in this run).

Run 2 (status 304, a non-2xx status that `requests` surfaces to the caller
with an empty body): the code's failure test is `response.ok`, i.e.
status < 400, so the run takes the success branch, `use_workspace` never
becomes false (the hook raises at `response.json()` with the configuration
untouched), refuting the claim's `use_workspace` conclusion for a non-2xx
status below 400. -/
theorem c3_counterexample :
    preDefaults.STAGEOUT_ACCESS_POINT = none
    ∧ preDefaults.STAGEOUT_WORKSPACE = some "default"
    ∧ (pre_execution_hook preDefaults (initUseWorkspace "https://ws.example.org" "ws")
        "tok" [("username", "alice")] "ws1" "usid-1"
        (Except.ok (some "bucket-x"))
        { status := 500, storageCredentials := none }).params.STAGEOUT_ACCESS_POINT
      = some "bucket-x"
    ∧ (pre_execution_hook preDefaults (initUseWorkspace "https://ws.example.org" "ws")
        "tok" [("username", "alice")] "ws1" "usid-1"
        (Except.ok (some "bucket-x"))
        { status := 500, storageCredentials := none }).params.STAGEOUT_WORKSPACE
      = some "ws1"
    ∧ (pre_execution_hook preDefaults (initUseWorkspace "https://ws.example.org" "ws")
        "tok" [("username", "alice")] "ws1" "usid-1"
        (Except.ok (some "bucket-x"))
        { status := 500, storageCredentials := none }).use_workspace = false
    ∧ (pre_execution_hook preDefaults (initUseWorkspace "https://ws.example.org" "ws")
        "tok" [("username", "alice")] "ws1" "usid-1"
        (Except.ok (some "bucket-x"))
        { status := 304, storageCredentials := none }).use_workspace = true
    ∧ (pre_execution_hook preDefaults (initUseWorkspace "https://ws.example.org" "ws")
        "tok" [("username", "alice")] "ws1" "usid-1"
        (Except.ok (some "bucket-x"))
        { status := 304, storageCredentials := none }).raised = true
    ∧ (pre_execution_hook preDefaults (initUseWorkspace "https://ws.example.org" "ws")
        "tok" [("username", "alice")] "ws1" "usid-1"
        (Except.ok (some "bucket-x"))
        { status := 304, storageCredentials := none }).params = preDefaults :=
  ⟨rfl, rfl, rfl, rfl, rfl, rfl, rfl, rfl⟩

/-- C3 (amended): for every pre-hook run with the workspace configured, a
non-empty token, and a workspace-details GET returning status ≥ 400 (the
code's failure test is `response.ok`, i.e. status < 400), the five stage-out
credential values remain exactly the environment-driven static defaults
installed by `init_config_defaults`, `use_workspace` becomes false, and the
hook returns normally. -/
theorem c3_fallback_keeps_credentials (env : String → Option String)
    (pPrev : AdditionalParameters) (url pfx token : String)
    (decoded : List (String × String)) (wsName usid : String)
    (cm : Except Unit (Option String)) (resp : WorkspaceResponse)
    (hws : initUseWorkspace url pfx = true) (htok : token ≠ "")
    (hstatus : 400 ≤ resp.status) :
    (pre_execution_hook (init_config_defaults env pPrev)
        (initUseWorkspace url pfx) token decoded wsName usid cm resp).params.STAGEOUT_AWS_SERVICEURL
      = (init_config_defaults env pPrev).STAGEOUT_AWS_SERVICEURL
    ∧ (pre_execution_hook (init_config_defaults env pPrev)
        (initUseWorkspace url pfx) token decoded wsName usid cm resp).params.STAGEOUT_AWS_ACCESS_KEY_ID
      = (init_config_defaults env pPrev).STAGEOUT_AWS_ACCESS_KEY_ID
    ∧ (pre_execution_hook (init_config_defaults env pPrev)
        (initUseWorkspace url pfx) token decoded wsName usid cm resp).params.STAGEOUT_AWS_SECRET_ACCESS_KEY
      = (init_config_defaults env pPrev).STAGEOUT_AWS_SECRET_ACCESS_KEY
    ∧ (pre_execution_hook (init_config_defaults env pPrev)
        (initUseWorkspace url pfx) token decoded wsName usid cm resp).params.STAGEOUT_AWS_REGION
      = (init_config_defaults env pPrev).STAGEOUT_AWS_REGION
    ∧ (pre_execution_hook (init_config_defaults env pPrev)
        (initUseWorkspace url pfx) token decoded wsName usid cm resp).params.STAGEOUT_OUTPUT
      = (init_config_defaults env pPrev).STAGEOUT_OUTPUT
    ∧ (pre_execution_hook (init_config_defaults env pPrev)
        (initUseWorkspace url pfx) token decoded wsName usid cm resp).use_workspace = false
    ∧ (pre_execution_hook (init_config_defaults env pPrev)
        (initUseWorkspace url pfx) token decoded wsName usid cm resp).raised = false := by
  have hlt : ¬ resp.status < 400 := Nat.not_lt.mpr hstatus
  simp [pre_execution_hook, hws, htok, hlt]

/-- Witness for the amended C3 at a concrete 500 response. -/
theorem c3_fallback_keeps_credentials_witness :
    (pre_execution_hook (init_config_defaults envEmpty AdditionalParameters.empty)
        (initUseWorkspace "https://ws.example.org" "ws") "tok" [("username", "alice")]
        "ws1" "usid-1" (Except.ok (some "bucket-x"))
        { status := 500, storageCredentials := none }).params.STAGEOUT_AWS_SERVICEURL
      = (init_config_defaults envEmpty AdditionalParameters.empty).STAGEOUT_AWS_SERVICEURL
    ∧ (pre_execution_hook (init_config_defaults envEmpty AdditionalParameters.empty)
        (initUseWorkspace "https://ws.example.org" "ws") "tok" [("username", "alice")]
        "ws1" "usid-1" (Except.ok (some "bucket-x"))
        { status := 500, storageCredentials := none }).params.STAGEOUT_AWS_ACCESS_KEY_ID
      = (init_config_defaults envEmpty AdditionalParameters.empty).STAGEOUT_AWS_ACCESS_KEY_ID
    ∧ (pre_execution_hook (init_config_defaults envEmpty AdditionalParameters.empty)
        (initUseWorkspace "https://ws.example.org" "ws") "tok" [("username", "alice")]
        "ws1" "usid-1" (Except.ok (some "bucket-x"))
        { status := 500, storageCredentials := none }).params.STAGEOUT_AWS_SECRET_ACCESS_KEY
      = (init_config_defaults envEmpty AdditionalParameters.empty).STAGEOUT_AWS_SECRET_ACCESS_KEY
    ∧ (pre_execution_hook (init_config_defaults envEmpty AdditionalParameters.empty)
        (initUseWorkspace "https://ws.example.org" "ws") "tok" [("username", "alice")]
        "ws1" "usid-1" (Except.ok (some "bucket-x"))
        { status := 500, storageCredentials := none }).params.STAGEOUT_AWS_REGION
      = (init_config_defaults envEmpty AdditionalParameters.empty).STAGEOUT_AWS_REGION
    ∧ (pre_execution_hook (init_config_defaults envEmpty AdditionalParameters.empty)
        (initUseWorkspace "https://ws.example.org" "ws") "tok" [("username", "alice")]
        "ws1" "usid-1" (Except.ok (some "bucket-x"))
        { status := 500, storageCredentials := none }).params.STAGEOUT_OUTPUT
      = (init_config_defaults envEmpty AdditionalParameters.empty).STAGEOUT_OUTPUT
    ∧ (pre_execution_hook (init_config_defaults envEmpty AdditionalParameters.empty)
        (initUseWorkspace "https://ws.example.org" "ws") "tok" [("username", "alice")]
        "ws1" "usid-1" (Except.ok (some "bucket-x"))
        { status := 500, storageCredentials := none }).use_workspace = false
    ∧ (pre_execution_hook (init_config_defaults envEmpty AdditionalParameters.empty)
        (initUseWorkspace "https://ws.example.org" "ws") "tok" [("username", "alice")]
        "ws1" "usid-1" (Except.ok (some "bucket-x"))
        { status := 500, storageCredentials := none }).raised = false :=
  c3_fallback_keeps_credentials envEmpty AdditionalParameters.empty
    "https://ws.example.org" "ws" "tok" [("username", "alice")] "ws1" "usid-1"
    (Except.ok (some "bucket-x")) { status := 500, storageCredentials := none }
    rfl (by decide) (by decide)

/-- C4: for every pre-hook run with the workspace configured, a non-empty
token, and a workspace-details GET returning HTTP 200 with a body containing
`storage.credentials`, the five `STAGEOUT_*` credential values are set to
exactly the body's `endpoint`, `access`, `secret`, `region` and `bucketname`
fields, and `use_workspace` is true afterwards. -/
theorem c4_workspace_credentials_applied (p0 : AdditionalParameters)
    (url pfx token : String) (decoded : List (String × String))
    (wsName usid : String) (cm : Except Unit (Option String))
    (sc : StorageCredentials)
    (hws : initUseWorkspace url pfx = true) (htok : token ≠ "") :
    (pre_execution_hook p0 (initUseWorkspace url pfx) token decoded wsName usid cm
        { status := 200, storageCredentials := some sc }).params.STAGEOUT_AWS_SERVICEURL
      = sc.endpoint
    ∧ (pre_execution_hook p0 (initUseWorkspace url pfx) token decoded wsName usid cm
        { status := 200, storageCredentials := some sc }).params.STAGEOUT_AWS_ACCESS_KEY_ID
      = sc.access
    ∧ (pre_execution_hook p0 (initUseWorkspace url pfx) token decoded wsName usid cm
        { status := 200, storageCredentials := some sc }).params.STAGEOUT_AWS_SECRET_ACCESS_KEY
      = sc.secret
    ∧ (pre_execution_hook p0 (initUseWorkspace url pfx) token decoded wsName usid cm
        { status := 200, storageCredentials := some sc }).params.STAGEOUT_AWS_REGION
      = sc.region
    ∧ (pre_execution_hook p0 (initUseWorkspace url pfx) token decoded wsName usid cm
        { status := 200, storageCredentials := some sc }).params.STAGEOUT_OUTPUT
      = sc.bucketname
    ∧ (pre_execution_hook p0 (initUseWorkspace url pfx) token decoded wsName usid cm
        { status := 200, storageCredentials := some sc }).use_workspace = true
    ∧ (pre_execution_hook p0 (initUseWorkspace url pfx) token decoded wsName usid cm
        { status := 200, storageCredentials := some sc }).raised = false := by
  simp [pre_execution_hook, hws, htok]

/-- Witness for C4 at a concrete 200 response carrying full credentials. -/
theorem c4_workspace_credentials_applied_witness :
    (pre_execution_hook preDefaults (initUseWorkspace "https://ws.example.org" "ws")
        "tok" [("username", "alice")] "ws1" "usid-1" (Except.ok (some "bucket-x"))
        { status := 200
        , storageCredentials := some
            { endpoint := some "https://minio.ws.example.org", access := some "AK"
            , secret := some "SK", region := some "eu-west-2"
            , bucketname := some "ws-bucket" } }).params.STAGEOUT_AWS_SERVICEURL
      = some "https://minio.ws.example.org"
    ∧ (pre_execution_hook preDefaults (initUseWorkspace "https://ws.example.org" "ws")
        "tok" [("username", "alice")] "ws1" "usid-1" (Except.ok (some "bucket-x"))
        { status := 200
        , storageCredentials := some
            { endpoint := some "https://minio.ws.example.org", access := some "AK"
            , secret := some "SK", region := some "eu-west-2"
            , bucketname := some "ws-bucket" } }).params.STAGEOUT_AWS_ACCESS_KEY_ID
      = some "AK"
    ∧ (pre_execution_hook preDefaults (initUseWorkspace "https://ws.example.org" "ws")
        "tok" [("username", "alice")] "ws1" "usid-1" (Except.ok (some "bucket-x"))
        { status := 200
        , storageCredentials := some
            { endpoint := some "https://minio.ws.example.org", access := some "AK"
            , secret := some "SK", region := some "eu-west-2"
            , bucketname := some "ws-bucket" } }).params.STAGEOUT_AWS_SECRET_ACCESS_KEY
      = some "SK"
    ∧ (pre_execution_hook preDefaults (initUseWorkspace "https://ws.example.org" "ws")
        "tok" [("username", "alice")] "ws1" "usid-1" (Except.ok (some "bucket-x"))
        { status := 200
        , storageCredentials := some
            { endpoint := some "https://minio.ws.example.org", access := some "AK"
            , secret := some "SK", region := some "eu-west-2"
            , bucketname := some "ws-bucket" } }).params.STAGEOUT_AWS_REGION
      = some "eu-west-2"
    ∧ (pre_execution_hook preDefaults (initUseWorkspace "https://ws.example.org" "ws")
        "tok" [("username", "alice")] "ws1" "usid-1" (Except.ok (some "bucket-x"))
        { status := 200
        , storageCredentials := some
            { endpoint := some "https://minio.ws.example.org", access := some "AK"
            , secret := some "SK", region := some "eu-west-2"
            , bucketname := some "ws-bucket" } }).params.STAGEOUT_OUTPUT
      = some "ws-bucket"
    ∧ (pre_execution_hook preDefaults (initUseWorkspace "https://ws.example.org" "ws")
        "tok" [("username", "alice")] "ws1" "usid-1" (Except.ok (some "bucket-x"))
        { status := 200
        , storageCredentials := some
            { endpoint := some "https://minio.ws.example.org", access := some "AK"
            , secret := some "SK", region := some "eu-west-2"
            , bucketname := some "ws-bucket" } }).use_workspace = true
    ∧ (pre_execution_hook preDefaults (initUseWorkspace "https://ws.example.org" "ws")
        "tok" [("username", "alice")] "ws1" "usid-1" (Except.ok (some "bucket-x"))
        { status := 200
        , storageCredentials := some
            { endpoint := some "https://minio.ws.example.org", access := some "AK"
            , secret := some "SK", region := some "eu-west-2"
            , bucketname := some "ws-bucket" } }).raised = false :=
  c4_workspace_credentials_applied preDefaults "https://ws.example.org" "ws" "tok"
    [("username", "alice")] "ws1" "usid-1" (Except.ok (some "bucket-x"))
    { endpoint := some "https://minio.ws.example.org", access := some "AK"
    , secret := some "SK", region := some "eu-west-2"
    , bucketname := some "ws-bucket" }
    rfl (by decide)
